import Mathlib

/-!
A shallow embedding of the reservation/seat-allocation core of the
Sistema-Reservas-Cursos backend, together with proofs of the behavioural
properties claimed by its specification.

The embedding translates:
* the Course model (`src/unnamed/part_004`, mongoose `courseSchema`):
  fields, the `reservarCupo` / `liberarCupo` / `sePuedeReservar` methods and
  the pre-save initialisation hook;
* the Reservation model (`src/backend/models/Reservation.js`): fields, the
  `sePuedeCancelar` virtual, the `cancelar` / `confirmar` / `completar` /
  `calificar` methods, the `userHasReservation` static, the pre-save duplicate
  hook and the unique index on `(usuario, curso)`;
* the route handlers of `src/backend/routes/reservations.js` (create, cancel,
  rate, admin confirm, admin complete) and the course deletion handler of
  `src/backend/routes/courses.js`.

Conventions: JavaScript `Date` values become `Int` milliseconds since the
epoch; mongoose `ObjectId`s become `Nat`; numbers become `Int`; a thrown
`Error` becomes `Except String`; the persistent store becomes an explicit
`DB` value threaded through the handlers.  Each handler returns the HTTP
response it sends together with the store state it leaves behind, so a write
that the code performs before a later failure stays visible (the code has no
rollback).  The semantics is sequential: one request runs to completion at a
time, each store round-trip being one atomic step.
-/

namespace Reservas

/-- Course status enum of `courseSchema.estado`:
`['activo', 'cancelado', 'completado', 'borrador']`. -/
inductive CEstado
  | activo
  | cancelado
  | completado
  | borrador
  deriving DecidableEq, Repr

/-- The Course document (`courseSchema`), restricted to the fields the
reservation core reads or writes.  `fechaInicio` is in milliseconds since the
epoch. -/
structure Course where
  cupoMaximo : Int
  cupoDisponible : Int
  estado : CEstado
  fechaInicio : Int
  precio : Int
  deriving DecidableEq, Repr

/-- Milliseconds in one day, as in the source's `24 * 60 * 60 * 1000`. -/
def msPorDia : Int := 24 * 60 * 60 * 1000

/-- Method `courseSchema.methods.reservarCupo`: if `cupoDisponible > 0` decrement it
and save, otherwise throw `'No hay cupos disponibles para este curso'` (the
code's rendering of `CapacityExhausted`). -/
def reservarCupo (c : Course) : Except String Course :=
  if c.cupoDisponible > 0 then
    .ok { c with cupoDisponible := c.cupoDisponible - 1 }
  else
    .error "No hay cupos disponibles para este curso"

/-- Method `courseSchema.methods.liberarCupo`: if `cupoDisponible < cupoMaximo`
increment it and save, otherwise throw `'No se puede liberar más cupos'` (the
code's rendering of `CapacityOverflow`). -/
def liberarCupo (c : Course) : Except String Course :=
  if c.cupoDisponible < c.cupoMaximo then
    .ok { c with cupoDisponible := c.cupoDisponible + 1 }
  else
    .error "No se puede liberar más cupos"

/-- Method `courseSchema.methods.sePuedeReservar`: the course is `activo`, starts in
the future, and has a seat left. -/
def sePuedeReservar (c : Course) (ahora : Int) : Bool :=
  c.estado == .activo && c.fechaInicio > ahora && c.cupoDisponible > 0

/-- JavaScript falsiness of the numeric field `cupoDisponible` as the course
pre-save hook sees it: `undefined`/`null` (here `none`) and `0` are falsy.
(`NaN` is also falsy in JavaScript but has no counterpart in this integer
model.) -/
def jsFalsyNum : Option Int → Bool
  | none => true
  | some v => v == 0

/-- The `courseSchema.pre('save')` hook: on a new document whose
`cupoDisponible` is falsy, overwrite it with `cupoMaximo`.  Returns the value
of the field after the hook runs. -/
def coursePreSave (isNew : Bool) (cupoMaximo : Int) (cupoDisponible : Option Int) :
    Option Int :=
  if isNew && jsFalsyNum cupoDisponible then some cupoMaximo else cupoDisponible

/-- The schema validation of `cupoDisponible`: required, `min: 0`, and the
custom validator `val <= this.cupoMaximo`. -/
def cupoValido (cupoMaximo : Int) : Option Int → Bool
  | none => false
  | some v => 0 ≤ v && v ≤ cupoMaximo

/-- Reservation status enum of `reservationSchema.estado`:
`['confirmada', 'cancelada', 'pendiente', 'completada']`. -/
inductive REstado
  | confirmada
  | cancelada
  | pendiente
  | completada
  deriving DecidableEq, Repr

/-- The Reservation document (`reservationSchema`), restricted to the fields
the reservation core reads or writes. -/
structure Reservation where
  usuario : Nat
  curso : Nat
  estado : REstado
  fechaCancelacion : Option Int
  motivoCancelacion : Option String
  notas : Option String
  precioPagado : Int
  metodoPago : String
  calificacion : Option Int
  comentario : Option String
  deriving DecidableEq, Repr

/-- The `sePuedeCancelar` virtual: with the course populated (the cancel route
always populates it; an unpopulated or missing course makes the virtual return
`false`, handled at the route level below), cancellation is allowed when the
state is `confirmada` and now is strictly before `fechaInicio` minus 2 days. -/
def sePuedeCancelar (r : Reservation) (curso : Course) (ahora : Int) : Bool :=
  let fechaLimite := curso.fechaInicio - 2 * msPorDia
  r.estado == .confirmada && ahora < fechaLimite

/-- Method `reservationSchema.methods.cancelar`: guard by `sePuedeCancelar`, then set
`estado = 'cancelada'`, the cancellation timestamp and the reason, and save. -/
def cancelar (r : Reservation) (curso : Course) (ahora : Int) (motivo : String) :
    Except String Reservation :=
  if !(sePuedeCancelar r curso ahora) then
    .error "No se puede cancelar esta reserva"
  else
    .ok { r with
      estado := .cancelada
      fechaCancelacion := some ahora
      motivoCancelacion := some motivo }

/-- Method `reservationSchema.methods.confirmar`: only `pendiente` reservations can be
confirmed. -/
def confirmar (r : Reservation) : Except String Reservation :=
  if r.estado ≠ .pendiente then
    .error "Solo se pueden confirmar reservas pendientes"
  else
    .ok { r with estado := .confirmada }

/-- Method `reservationSchema.methods.completar`: only `confirmada` reservations can
be completed. -/
def completar (r : Reservation) : Except String Reservation :=
  if r.estado ≠ .confirmada then
    .error "Solo se pueden completar reservas confirmadas"
  else
    .ok { r with estado := .completada }

/-- Method `reservationSchema.methods.calificar`: requires `estado == 'completada'`
and a rating in `[1, 5]`; then stores the rating and comment.  The method does
not test whether `calificacion` is already set. -/
def calificar (r : Reservation) (calificacion : Int) (comentario : String) :
    Except String Reservation :=
  if r.estado ≠ .completada then
    .error "Solo se pueden calificar cursos completados"
  else if calificacion < 1 || calificacion > 5 then
    .error "La calificación debe estar entre 1 y 5"
  else
    .ok { r with calificacion := some calificacion, comentario := some comentario }

/-- The persistent store: the `courses` and `reservations` collections, each a
list of documents keyed by id. -/
structure DB where
  courses : List (Nat × Course)
  reservations : List (Nat × Reservation)
  deriving DecidableEq, Repr

/-- Generic `findById` over a collection keyed by id. -/
def findDoc {α : Type} (l : List (Nat × α)) (k : Nat) : Option α :=
  match l.find? (fun p => p.1 == k) with
  | some p => some p.2
  | none => none

/-- Generic in-place save of an already-stored document. -/
def saveDoc {α : Type} (l : List (Nat × α)) (k : Nat) (a : α) : List (Nat × α) :=
  l.map fun p => if p.1 == k then (p.1, a) else p

/-- Query `Course.findById`. -/
def lookupCourse (cs : List (Nat × Course)) (cid : Nat) : Option Course :=
  findDoc cs cid

/-- Query `Reservation.findById`. -/
def lookupReservation (rs : List (Nat × Reservation)) (rid : Nat) : Option Reservation :=
  findDoc rs rid

/-- Persisting `course.save()` on an already-stored course document. -/
def updateCourse (cs : List (Nat × Course)) (cid : Nat) (c : Course) :
    List (Nat × Course) :=
  saveDoc cs cid c

/-- Persisting `reservation.save()` on an already-stored reservation document.
The pre-save duplicate hook is skipped for these saves because `usuario` and
`curso` are unmodified. -/
def updateReservation (rs : List (Nat × Reservation)) (rid : Nat) (r : Reservation) :
    List (Nat × Reservation) :=
  saveDoc rs rid r

/-- Static `Reservation.userHasReservation`: does the user hold a `pendiente` or
`confirmada` reservation for the course? -/
def userHasReservation (rs : List (Nat × Reservation)) (u c : Nat) : Bool :=
  rs.any fun p =>
    p.2.usuario == u && p.2.curso == c &&
      (p.2.estado == .pendiente || p.2.estado == .confirmada)

/-- The `reservationSchema.pre('save')` duplicate check as it runs on a new
document: another document with the same `(usuario, curso)`, an active state,
and a different `_id`. -/
def preSaveActiveDup (rs : List (Nat × Reservation)) (selfId : Nat) (r : Reservation) :
    Bool :=
  rs.any fun p =>
    p.2.usuario == r.usuario && p.2.curso == r.curso &&
      (p.2.estado == .pendiente || p.2.estado == .confirmada) && p.1 != selfId

/-- Whether inserting `r` violates the unique index
`reservationSchema.index({ usuario: 1, curso: 1 }, { unique: true })`: any
stored document with the same `(usuario, curso)` pair, in any state. -/
def uniqueIndexConflict (rs : List (Nat × Reservation)) (r : Reservation) : Bool :=
  rs.any fun p => p.2.usuario == r.usuario && p.2.curso == r.curso

/-- Saving `reservation.save()` a new document: the pre-save hook runs first and
rejects an active duplicate; then the insert itself hits the unique
`(usuario, curso)` index; otherwise the document is stored. -/
def insertReservation (rs : List (Nat × Reservation)) (newId : Nat) (r : Reservation) :
    Except String (List (Nat × Reservation)) :=
  if preSaveActiveDup rs newId r then
    .error "Ya tienes una reserva activa para este curso"
  else if uniqueIndexConflict rs r then
    .error "usuario ya existe"
  else
    .ok (rs ++ [(newId, r)])

/-- An HTTP response as the handlers build it: the `success` flag, status code
and message of the JSON body. -/
structure Resp where
  success : Bool
  status : Nat
  message : String
  deriving DecidableEq, Repr

/-- Handler `router.post('/')` of `src/backend/routes/reservations.js`: create a
reservation.  Looks up the course; rejects a missing or non-`activo` or
non-reservable course; rejects an existing active reservation for the pair;
builds the new document (`estado` defaults to `pendiente`,
`precioPagado = course.precio`); saves it; then claims a seat with
`reservarCupo`.  There is no rollback: a failure of the seat claim leaves the
saved reservation in the store (the mongoose duplicate-key error is mapped to
status 400 by the error middleware, a plain hook error to 500). -/
def createReservation (db : DB) (newId uid cursoId : Nat)
    (notas : Option String) (metodoPago : String) (ahora : Int) : Resp × DB :=
  match lookupCourse db.courses cursoId with
  | none => (⟨false, 404, "Curso no encontrado"⟩, db)
  | some course =>
    if course.estado ≠ .activo then
      (⟨false, 400, "El curso no está disponible para reservas"⟩, db)
    else if !(sePuedeReservar course ahora) then
      (⟨false, 400, "No se puede reservar este curso (cupo lleno o fecha pasada)"⟩, db)
    else if userHasReservation db.reservations uid cursoId then
      (⟨false, 409, "Ya tienes una reserva activa para este curso"⟩, db)
    else
      let r : Reservation :=
        { usuario := uid
          curso := cursoId
          estado := .pendiente
          fechaCancelacion := none
          motivoCancelacion := none
          notas := notas
          precioPagado := course.precio
          metodoPago := metodoPago
          calificacion := none
          comentario := none }
      match insertReservation db.reservations newId r with
      | .error e =>
          (⟨false, if preSaveActiveDup db.reservations newId r then 500 else 400, e⟩, db)
      | .ok rs =>
        match reservarCupo course with
        | .error e => (⟨false, 500, e⟩, { db with reservations := rs })
        | .ok course2 =>
          (⟨true, 201, "Reserva creada exitosamente"⟩,
            { courses := updateCourse db.courses cursoId course2, reservations := rs })

/-- Handler `router.put('/:id/cancel')`: cancel a reservation.  Looks it up with the
course populated; rejects a non-owner non-admin caller; then, inside one
try/catch, runs `cancelar` (which saves the cancelled reservation) and only
afterwards `liberarCupo` on the course — so when the seat release throws, the
catch returns status 400 although the reservation is already persisted as
`cancelada`.  A missing course leaves `sePuedeCancelar` false, so `cancelar`
throws before the course is touched. -/
def cancelReservation (db : DB) (rid requesterId : Nat) (isAdmin : Bool)
    (motivo : String) (ahora : Int) : Resp × DB :=
  match lookupReservation db.reservations rid with
  | none => (⟨false, 404, "Reserva no encontrada"⟩, db)
  | some r =>
    if requesterId ≠ r.usuario && !isAdmin then
      (⟨false, 403, "No tienes permisos para cancelar esta reserva"⟩, db)
    else
      match lookupCourse db.courses r.curso with
      | none => (⟨false, 400, "No se puede cancelar esta reserva"⟩, db)
      | some curso =>
        match cancelar r curso ahora motivo with
        | .error e => (⟨false, 400, e⟩, db)
        | .ok r2 =>
          let rs := updateReservation db.reservations rid r2
          match liberarCupo curso with
          | .error e => (⟨false, 400, e⟩, { db with reservations := rs })
          | .ok curso2 =>
            (⟨true, 200, "Reserva cancelada exitosamente"⟩,
              { courses := updateCourse db.courses r.curso curso2, reservations := rs })

/-- Handler `router.put('/:id/rate')`: rate a completed course.  The express-validator
chain rejects a rating outside `[1, 5]` before the handler body runs; the
handler then checks ownership and delegates to `calificar`. -/
def rateReservation (db : DB) (rid requesterId : Nat) (calificacion : Int)
    (comentario : String) : Resp × DB :=
  if calificacion < 1 || calificacion > 5 then
    (⟨false, 400, "La calificación debe estar entre 1 y 5"⟩, db)
  else
    match lookupReservation db.reservations rid with
    | none => (⟨false, 404, "Reserva no encontrada"⟩, db)
    | some r =>
      if requesterId ≠ r.usuario then
        (⟨false, 403, "No tienes permisos para calificar esta reserva"⟩, db)
      else
        match calificar r calificacion comentario with
        | .error e => (⟨false, 400, e⟩, db)
        | .ok r2 =>
          (⟨true, 200, "Calificación enviada exitosamente"⟩,
            { db with reservations := updateReservation db.reservations rid r2 })

/-- Handler `router.put('/admin/:id/confirm')`: admin confirms a reservation via
`confirmar`, mapping a thrown guard error to status 400. -/
def confirmReservation (db : DB) (rid : Nat) : Resp × DB :=
  match lookupReservation db.reservations rid with
  | none => (⟨false, 404, "Reserva no encontrada"⟩, db)
  | some r =>
    match confirmar r with
    | .error e => (⟨false, 400, e⟩, db)
    | .ok r2 =>
      (⟨true, 200, "Reserva confirmada exitosamente"⟩,
        { db with reservations := updateReservation db.reservations rid r2 })

/-- Handler `router.put('/admin/:id/complete')`: admin completes a reservation via
`completar`, mapping a thrown guard error to status 400. -/
def completeReservation (db : DB) (rid : Nat) : Resp × DB :=
  match lookupReservation db.reservations rid with
  | none => (⟨false, 404, "Reserva no encontrada"⟩, db)
  | some r =>
    match completar r with
    | .error e => (⟨false, 400, e⟩, db)
    | .ok r2 =>
      (⟨true, 200, "Reserva completada exitosamente"⟩,
        { db with reservations := updateReservation db.reservations rid r2 })

/-- Handler `router.delete('/:id')` of `src/backend/routes/courses.js`: after the
admin gate, look the course up and, when it exists, remove it with
`Course.findByIdAndDelete` — without consulting the reservations collection. -/
def deleteCourse (db : DB) (cid : Nat) : Resp × DB :=
  match lookupCourse db.courses cid with
  | none => (⟨false, 404, "Curso no encontrado"⟩, db)
  | some _ =>
    (⟨true, 200, "Curso eliminado exitosamente"⟩,
      { db with courses := db.courses.filter fun p => p.1 ≠ cid })

/-! ### Concrete fixtures used by witnesses -/

/-- Fixture: an active course (id 3 in `dbSeis`) with 5 of 10 seats free,
starting 10 days after the epoch. -/
def cursoSeis : Course := ⟨10, 5, CEstado.activo, 10 * msPorDia, 0⟩

/-- Fixture: a confirmed reservation of user 7 on course 3. -/
def resConf : Reservation :=
  ⟨7, 3, REstado.confirmada, none, none, none, 0, "gratuito", none, none⟩

/-- Fixture: a cancelled reservation of user 8 on course 3. -/
def resCanc : Reservation :=
  ⟨8, 3, REstado.cancelada, none, none, none, 0, "gratuito", none, none⟩

/-- Fixture: store holding `cursoSeis` and the two reservations above. -/
def dbSeis : DB := ⟨[(3, cursoSeis)], [(1, resConf), (2, resCanc)]⟩

/-- Fixture: a completed reservation of user 7 that already carries rating 4. -/
def resRated : Reservation :=
  ⟨7, 2, REstado.completada, none, none, none, 0, "gratuito", some 4, some "ok"⟩

/-- Fixture: store whose only reservation is `resRated`. -/
def dbRated : DB := ⟨[], [(1, resRated)]⟩

/-- Fixture: store with one active course (id 3, 5 of 10 seats free, price 50,
starting 10 days after the epoch) and no reservations. -/
def dbCrear : DB := ⟨[(3, ⟨10, 5, CEstado.activo, 10 * msPorDia, 50⟩)], []⟩

/-- Fixture: store with the same course as `dbCrear` plus a cancelled
reservation of user 7 on it. -/
def dbRebook : DB :=
  ⟨[(3, ⟨10, 5, CEstado.activo, 10 * msPorDia, 50⟩)],
    [(1, ⟨7, 3, REstado.cancelada, some 0, some "x", none, 50, "gratuito",
      none, none⟩)]⟩

/-- The reservation-collection invariant of the unique index
`({ usuario: 1, curso: 1 }, { unique: true })`: distinct stored documents
never share the `(usuario, curso)` pair. -/
def pairUnique (rs : List (Nat × Reservation)) : Prop :=
  rs.Pairwise fun p q => ¬(p.2.usuario = q.2.usuario ∧ p.2.curso = q.2.curso)

/-! ### Store lemmas -/

/-- Unfolding lemma: looking a key up in a non-empty collection. -/
theorem findDoc_cons {α : Type} (p : Nat × α) (t : List (Nat × α)) (k : Nat) :
    findDoc (p :: t) k = if p.1 == k then some p.2 else findDoc t k := by
  simp only [findDoc, List.find?]
  cases h : (p.1 == k) <;> simp [h]

/-- Looking a key up at a matching head. -/
theorem findDoc_cons_pos {α : Type} (p : Nat × α) (t : List (Nat × α)) (k : Nat)
    (hk : (p.1 == k) = true) : findDoc (p :: t) k = some p.2 := by
  rw [findDoc_cons, if_pos hk]

/-- Looking a key up past a non-matching head. -/
theorem findDoc_cons_neg {α : Type} (p : Nat × α) (t : List (Nat × α)) (k : Nat)
    (hk : (p.1 == k) = false) : findDoc (p :: t) k = findDoc t k := by
  rw [findDoc_cons, if_neg (by simp [hk])]

/-- Unfolding lemma: saving into a non-empty collection. -/
theorem saveDoc_cons {α : Type} (p : Nat × α) (t : List (Nat × α)) (k : Nat) (a : α) :
    saveDoc (p :: t) k a = (if p.1 == k then (p.1, a) else p) :: saveDoc t k a := by
  simp only [saveDoc, List.map_cons]

/-- Looking a key up after saving under that key yields the saved document,
provided the key was present. -/
theorem findDoc_saveDoc {α : Type} (l : List (Nat × α)) (k : Nat) (a b : α)
    (h : findDoc l k = some b) : findDoc (saveDoc l k a) k = some a := by
  induction l with
  | nil => simp [findDoc] at h
  | cons p t ih =>
    rw [saveDoc_cons]
    by_cases hk : (p.1 == k) = true
    · rw [if_pos hk]
      exact findDoc_cons_pos (p.1, a) (saveDoc t k a) k hk
    · have hk' : (p.1 == k) = false := by simpa using hk
      rw [if_neg (by simp [hk']), findDoc_cons_neg _ _ _ hk']
      rw [findDoc_cons_neg _ _ _ hk'] at h
      exact ih h

/-- Looking a key up after filtering that key out yields nothing. -/
theorem findDoc_filter_ne {α : Type} (l : List (Nat × α)) (k : Nat) :
    findDoc (l.filter fun p => p.1 ≠ k) k = none := by
  induction l with
  | nil => rfl
  | cons p t ih =>
    rw [List.filter_cons]
    by_cases hk : p.1 = k
    · rw [if_neg (by simp [hk])]
      exact ih
    · rw [if_pos (by simp [hk]), findDoc_cons_neg _ _ _ (by simp [hk])]
      exact ih

/-! ### Claim theorems -/

/-- C1: from any state satisfying the capacity invariant
`0 ≤ cupoDisponible ≤ cupoMaximo`, a successful `reservarCupo` never drives
`cupoDisponible` below `0` and a successful `liberarCupo` never drives it
above `cupoMaximo`: both results still satisfy the invariant (and a failing
call returns the error without producing any new state). -/
theorem seat_ledger_preserves_invariant (c : Course)
    (h0 : 0 ≤ c.cupoDisponible) (h1 : c.cupoDisponible ≤ c.cupoMaximo) :
    (∀ c', reservarCupo c = .ok c' →
      0 ≤ c'.cupoDisponible ∧ c'.cupoDisponible ≤ c'.cupoMaximo) ∧
    (∀ c', liberarCupo c = .ok c' →
      0 ≤ c'.cupoDisponible ∧ c'.cupoDisponible ≤ c'.cupoMaximo) := by
  constructor
  · intro c' h
    rw [reservarCupo] at h
    split at h
    · cases h
      constructor <;> simp <;> omega
    · cases h
  · intro c' h
    rw [liberarCupo] at h
    split at h
    · cases h
      constructor <;> simp <;> omega
    · cases h

/-- Witness for C1 at a concrete course with 3 of 10 seats available. -/
theorem seat_ledger_preserves_invariant_witness :
    (0 : Int) ≤ 3 ∧ (3 : Int) ≤ 10 ∧
    (0 ≤ (2 : Int) ∧ (2 : Int) ≤ 10) ∧ (0 ≤ (4 : Int) ∧ (4 : Int) ≤ 10) :=
  ⟨by decide, by decide,
    (seat_ledger_preserves_invariant ⟨10, 3, .activo, 0, 0⟩ (by decide) (by decide)).1
      ⟨10, 2, .activo, 0, 0⟩ rfl,
    (seat_ledger_preserves_invariant ⟨10, 3, .activo, 0, 0⟩ (by decide) (by decide)).2
      ⟨10, 4, .activo, 0, 0⟩ rfl⟩

/-- C4: `reservarCupo` with a seat available decrements `cupoDisponible` by
exactly one and with none available fails with the `CapacityExhausted` message
leaving the count unchanged; `liberarCupo` below capacity increments by
exactly one and at capacity fails with the `CapacityOverflow` message leaving
the count unchanged. -/
theorem seat_ledger_exact (c : Course) :
    (0 < c.cupoDisponible →
      reservarCupo c = .ok { c with cupoDisponible := c.cupoDisponible - 1 }) ∧
    (c.cupoDisponible = 0 →
      reservarCupo c = .error "No hay cupos disponibles para este curso") ∧
    (c.cupoDisponible < c.cupoMaximo →
      liberarCupo c = .ok { c with cupoDisponible := c.cupoDisponible + 1 }) ∧
    (c.cupoDisponible = c.cupoMaximo →
      liberarCupo c = .error "No se puede liberar más cupos") := by
  refine ⟨fun h => ?_, fun h => ?_, fun h => ?_, fun h => ?_⟩ <;>
    simp [reservarCupo, liberarCupo, h]

/-- Witness for C4 at concrete courses. -/
theorem seat_ledger_exact_witness :
    reservarCupo ⟨10, 3, .activo, 0, 0⟩ = .ok ⟨10, 2, .activo, 0, 0⟩ ∧
    reservarCupo ⟨10, 0, .activo, 0, 0⟩ =
      .error "No hay cupos disponibles para este curso" ∧
    liberarCupo ⟨10, 3, .activo, 0, 0⟩ = .ok ⟨10, 4, .activo, 0, 0⟩ ∧
    liberarCupo ⟨10, 10, .activo, 0, 0⟩ = .error "No se puede liberar más cupos" :=
  ⟨(seat_ledger_exact ⟨10, 3, .activo, 0, 0⟩).1 (by decide),
    (seat_ledger_exact ⟨10, 0, .activo, 0, 0⟩).2.1 (by decide),
    (seat_ledger_exact ⟨10, 3, .activo, 0, 0⟩).2.2.1 (by decide),
    (seat_ledger_exact ⟨10, 10, .activo, 0, 0⟩).2.2.2 (by decide)⟩

/-- C10: the course pre-save hook tests `cupoDisponible` for falsiness, so a
new course saved with the field explicitly set to `0` has it overwritten with
`cupoMaximo`; consequently no new course that passes schema validation ends up
with zero available seats. -/
theorem course_presave_overwrites_zero (cupoMaximo : Int) (inp : Option Int)
    (h : 1 ≤ cupoMaximo) :
    coursePreSave true cupoMaximo (some 0) = some cupoMaximo ∧
    (cupoValido cupoMaximo (coursePreSave true cupoMaximo inp) = true →
      coursePreSave true cupoMaximo inp ≠ some 0) := by
  constructor
  · simp [coursePreSave, jsFalsyNum]
  · intro _
    match inp with
    | none =>
      simp only [coursePreSave, jsFalsyNum, Bool.and_true, if_pos]
      intro hc
      rw [Option.some_inj] at hc
      omega
    | some v =>
      by_cases hz : v = 0
      · subst hz
        simp only [coursePreSave, jsFalsyNum]
        norm_num
        omega
      · simp only [coursePreSave, jsFalsyNum]
        have : ((v : Int) == 0) = false := by simp [hz]
        simp [this, hz]

/-- Witness for C10 at `cupoMaximo = 5` with the field explicitly `0`. -/
theorem course_presave_overwrites_zero_witness :
    coursePreSave true 5 (some 0) = some 5 ∧
    (cupoValido 5 (coursePreSave true 5 (some 0)) = true →
      coursePreSave true 5 (some 0) ≠ some 0) :=
  course_presave_overwrites_zero 5 (some 0) (by decide)

/-- C2 counterexample: the claim asserts that a `pendiente` reservation can be
cancelled whenever now is earlier than the course start minus 2 days, but
`sePuedeCancelar` additionally requires the state to be `confirmada`: a
pending reservation 10 days before the start is rejected. -/
theorem pending_cancel_rejected :
    (⟨7, 1, REstado.pendiente, none, none, none, 0, "gratuito", none, none⟩ :
        Reservation).estado = REstado.pendiente ∧
    (0 : Int) < (⟨20, 5, CEstado.activo, 10 * msPorDia, 0⟩ : Course).fechaInicio -
        2 * msPorDia ∧
    cancelar ⟨7, 1, REstado.pendiente, none, none, none, 0, "gratuito", none, none⟩
        ⟨20, 5, CEstado.activo, 10 * msPorDia, 0⟩ 0 "no puedo asistir" =
      .error "No se puede cancelar esta reserva" :=
  ⟨rfl, by decide, rfl⟩

/-- C2 (amended): cancellation succeeds exactly when the state is `confirmada`
and now is earlier than the course start minus 2 days — a `pendiente`
reservation is always rejected; on success the state becomes `cancelada` with
the timestamp and reason set; past the 2-day cutoff it fails with the
`CancellationNotAllowed` message regardless of the caller. -/
theorem cancel_guard_exact (r : Reservation) (c : Course) (ahora : Int)
    (motivo : String) :
    ((∃ r', cancelar r c ahora motivo = .ok r') ↔
      r.estado = .confirmada ∧ ahora < c.fechaInicio - 2 * msPorDia) ∧
    (∀ r', cancelar r c ahora motivo = .ok r' →
      r' = { r with
        estado := REstado.cancelada
        fechaCancelacion := some ahora
        motivoCancelacion := some motivo }) ∧
    (¬ ahora < c.fechaInicio - 2 * msPorDia →
      cancelar r c ahora motivo = .error "No se puede cancelar esta reserva") := by
  refine ⟨⟨?_, ?_⟩, ?_, ?_⟩
  · rintro ⟨r', h⟩
    rw [cancelar] at h
    split at h
    · cases h
    · rename_i hg
      rw [sePuedeCancelar] at hg
      simp only [Bool.not_eq_true', Bool.and_eq_false_iff] at hg
      simp at hg
      obtain ⟨h1, h2⟩ := hg
      exact ⟨h1, by omega⟩
  · rintro ⟨h1, h2⟩
    exact ⟨{ r with
        estado := REstado.cancelada
        fechaCancelacion := some ahora
        motivoCancelacion := some motivo },
      by rw [cancelar, if_neg (by simp [sePuedeCancelar, h1]; omega)]⟩
  · intro r' h
    rw [cancelar] at h
    split at h
    · cases h
    · cases h
      rfl
  · intro hn
    rw [cancelar, if_pos (by simp [sePuedeCancelar]; exact Or.inr (by omega))]

/-- Witness for the amended C2 at a confirmed reservation 10 days before the
start (cancellable) and 1 day before the cutoff (rejected). -/
theorem cancel_guard_exact_witness :
    (∃ r', cancelar ⟨7, 1, REstado.confirmada, none, none, none, 0, "gratuito",
        none, none⟩ ⟨20, 5, CEstado.activo, 10 * msPorDia, 0⟩ 0 "motivo" = .ok r') ∧
    cancelar ⟨7, 1, REstado.confirmada, none, none, none, 0, "gratuito", none, none⟩
        ⟨20, 5, CEstado.activo, 10 * msPorDia, 0⟩ (9 * msPorDia) "motivo" =
      .error "No se puede cancelar esta reserva" :=
  ⟨(cancel_guard_exact _ _ 0 "motivo").1.mpr ⟨rfl, by decide⟩,
    (cancel_guard_exact _ _ (9 * msPorDia) "motivo").2.2 (by decide)⟩

/-- C8 counterexample: a course referenced by a pending reservation is still
hard-deleted by the admin deletion handler — the handler never consults the
reservations collection. -/
theorem delete_referenced_course :
    (∃ p ∈ (⟨[(3, ⟨10, 10, CEstado.activo, 100, 0⟩)],
        [(1, ⟨7, 3, REstado.pendiente, none, none, none, 0, "gratuito", none, none⟩)]⟩ :
          DB).reservations, p.2.curso = 3) ∧
    lookupCourse (deleteCourse ⟨[(3, ⟨10, 10, CEstado.activo, 100, 0⟩)],
        [(1, ⟨7, 3, REstado.pendiente, none, none, none, 0, "gratuito", none, none⟩)]⟩
        3).2.courses 3 = none ∧
    (deleteCourse ⟨[(3, ⟨10, 10, CEstado.activo, 100, 0⟩)],
        [(1, ⟨7, 3, REstado.pendiente, none, none, none, 0, "gratuito", none, none⟩)]⟩
        3).1.success = true := by
  refine ⟨⟨(1, ⟨7, 3, REstado.pendiente, none, none, none, 0, "gratuito", none, none⟩),
    by simp, rfl⟩, rfl, rfl⟩

/-- C8 (amended): the admin deletion operation removes any existing course
unconditionally — also when reservation documents reference it — and leaves
the reservations collection untouched (no cascade). -/
theorem delete_course_unconditional (db : DB) (cid : Nat) (course : Course)
    (h : lookupCourse db.courses cid = some course) :
    (deleteCourse db cid).1.success = true ∧
    lookupCourse (deleteCourse db cid).2.courses cid = none ∧
    (deleteCourse db cid).2.reservations = db.reservations := by
  simp only [deleteCourse, h]
  exact ⟨trivial, findDoc_filter_ne db.courses cid, trivial⟩

/-- Witness for the amended C8 at a one-course store. -/
theorem delete_course_unconditional_witness :
    (deleteCourse ⟨[(3, ⟨10, 10, CEstado.activo, 100, 0⟩)], []⟩ 3).1.success = true ∧
    lookupCourse
      (deleteCourse ⟨[(3, ⟨10, 10, CEstado.activo, 100, 0⟩)], []⟩ 3).2.courses 3 =
        none ∧
    (deleteCourse ⟨[(3, ⟨10, 10, CEstado.activo, 100, 0⟩)], []⟩ 3).2.reservations =
      ([] : List (Nat × Reservation)) :=
  delete_course_unconditional ⟨[(3, ⟨10, 10, CEstado.activo, 100, 0⟩)], []⟩ 3
    ⟨10, 10, CEstado.activo, 100, 0⟩ rfl

/-- C6: a lifecycle transition attempted outside its guard — confirming a
non-`pendiente` reservation, completing a non-`confirmada` one, cancelling
when `sePuedeCancelar` is false, or cancelling an already-`cancelada`
reservation a second time — fails with the corresponding `InvalidTransition`
message and returns the store unchanged, so the reservation keeps its state
and every other field. -/
theorem invalid_transition_no_mutation (db : DB) (rid : Nat) (motivo : String)
    (ahora : Int) :
    (∀ r, lookupReservation db.reservations rid = some r → r.estado ≠ .pendiente →
      confirmReservation db rid =
        (⟨false, 400, "Solo se pueden confirmar reservas pendientes"⟩, db)) ∧
    (∀ r, lookupReservation db.reservations rid = some r → r.estado ≠ .confirmada →
      completeReservation db rid =
        (⟨false, 400, "Solo se pueden completar reservas confirmadas"⟩, db)) ∧
    (∀ r curso, lookupReservation db.reservations rid = some r →
      lookupCourse db.courses r.curso = some curso →
      sePuedeCancelar r curso ahora = false →
      cancelReservation db rid r.usuario false motivo ahora =
        (⟨false, 400, "No se puede cancelar esta reserva"⟩, db)) ∧
    (∀ r, lookupReservation db.reservations rid = some r → r.estado = .cancelada →
      cancelReservation db rid r.usuario false motivo ahora =
        (⟨false, 400, "No se puede cancelar esta reserva"⟩, db)) := by
  refine ⟨?_, ?_, ?_, ?_⟩
  · intro r hr hne
    simp only [confirmReservation, hr, confirmar, if_pos hne]
  · intro r hr hne
    simp only [completeReservation, hr, completar, if_pos hne]
  · intro r curso hr hc hg
    simp only [cancelReservation, hr, hc]
    rw [if_neg (by simp)]
    rw [cancelar, if_pos (by simp [hg])]
  · intro r hr hcanc
    simp only [cancelReservation, hr]
    rw [if_neg (by simp)]
    cases hc : lookupCourse db.courses r.curso with
    | none => rfl
    | some curso =>
      dsimp only
      have hcerr : cancelar r curso ahora motivo =
          .error "No se puede cancelar esta reserva" := by
        rw [cancelar, if_pos (by simp [sePuedeCancelar, hcanc])]
      rw [hcerr]

/-- Witness for C6 at the fixture store `dbSeis`: confirming the confirmed
reservation, completing the cancelled one, cancelling the confirmed one past
the cutoff, and cancelling the cancelled one again all fail and leave the
store unchanged. -/
theorem invalid_transition_no_mutation_witness :
    confirmReservation dbSeis 1 =
      (⟨false, 400, "Solo se pueden confirmar reservas pendientes"⟩, dbSeis) ∧
    completeReservation dbSeis 2 =
      (⟨false, 400, "Solo se pueden completar reservas confirmadas"⟩, dbSeis) ∧
    cancelReservation dbSeis 1 7 false "motivo" (9 * msPorDia) =
      (⟨false, 400, "No se puede cancelar esta reserva"⟩, dbSeis) ∧
    cancelReservation dbSeis 2 8 false "motivo" (9 * msPorDia) =
      (⟨false, 400, "No se puede cancelar esta reserva"⟩, dbSeis) :=
  ⟨(invalid_transition_no_mutation dbSeis 1 "motivo" (9 * msPorDia)).1
      resConf rfl (by decide),
    (invalid_transition_no_mutation dbSeis 2 "motivo" (9 * msPorDia)).2.1
      resCanc rfl (by decide),
    (invalid_transition_no_mutation dbSeis 1 "motivo" (9 * msPorDia)).2.2.1
      resConf cursoSeis rfl rfl (by decide),
    (invalid_transition_no_mutation dbSeis 2 "motivo" (9 * msPorDia)).2.2.2
      resCanc rfl rfl⟩

/-- C7 counterexample: a completed reservation that already carries rating 4
is rated again by its owner with 5 — the handler succeeds and overwrites the
stored rating and comment, although the claim says a second attempt fails. -/
theorem rating_twice_succeeds :
    (rateReservation ⟨[], [(1, ⟨7, 2, REstado.completada, none, none, none, 0,
        "gratuito", some 4, some "ok"⟩)]⟩ 1 7 5 "mejor").1.success = true ∧
    (rateReservation ⟨[], [(1, ⟨7, 2, REstado.completada, none, none, none, 0,
        "gratuito", some 4, some "ok"⟩)]⟩ 1 7 5 "mejor").2.reservations =
      [(1, ⟨7, 2, REstado.completada, none, none, none, 0, "gratuito", some 5,
        some "mejor"⟩)] :=
  ⟨rfl, rfl⟩

/-- C7 (amended): rating succeeds exactly when the requester owns the
reservation, the state is `completada` and the rating lies in `[1, 5]`: an
out-of-range rating fails with the `InvalidRating` message, a wrong state
fails with the completed-only message, a non-owner gets 403 — but no check of
a previously attached rating exists, so a second in-range attempt succeeds
and overwrites the stored rating and comment. -/
theorem rate_guard_exact (db : DB) (rid requesterId : Nat) (calif : Int)
    (com : String) :
    ((calif < 1 ∨ calif > 5) →
      rateReservation db rid requesterId calif com =
        (⟨false, 400, "La calificación debe estar entre 1 y 5"⟩, db)) ∧
    (∀ r, lookupReservation db.reservations rid = some r →
      1 ≤ calif → calif ≤ 5 → requesterId ≠ r.usuario →
      rateReservation db rid requesterId calif com =
        (⟨false, 403, "No tienes permisos para calificar esta reserva"⟩, db)) ∧
    (∀ r, lookupReservation db.reservations rid = some r →
      1 ≤ calif → calif ≤ 5 → requesterId = r.usuario → r.estado ≠ .completada →
      rateReservation db rid requesterId calif com =
        (⟨false, 400, "Solo se pueden calificar cursos completados"⟩, db)) ∧
    (∀ r, lookupReservation db.reservations rid = some r →
      1 ≤ calif → calif ≤ 5 → requesterId = r.usuario → r.estado = .completada →
      rateReservation db rid requesterId calif com =
        (⟨true, 200, "Calificación enviada exitosamente"⟩,
          { db with reservations := (updateReservation db.reservations rid
            { r with calificacion := some calif, comentario := some com }) })) := by
  refine ⟨?_, ?_, ?_, ?_⟩
  · intro h
    rw [rateReservation, if_pos (by rcases h with h | h <;> simp [h])]
  · intro r hr h1 h5 hown
    rw [rateReservation, if_neg (by simp; omega)]
    simp only [hr]
    rw [if_pos hown]
  · intro r hr h1 h5 hown hst
    rw [rateReservation, if_neg (by simp; omega)]
    simp only [hr]
    rw [if_neg (by simp [hown]), calificar, if_pos hst]
  · intro r hr h1 h5 hown hst
    rw [rateReservation, if_neg (by simp; omega)]
    simp only [hr]
    rw [if_neg (by simp [hown]), calificar, if_neg (by simp [hst]),
      if_neg (by simp; omega)]

/-- Witness for the amended C7 at the fixture store `dbRated`: an
out-of-range rating fails, a non-owner is rejected, and the owner's in-range
second rating succeeds, overwriting the stored rating. -/
theorem rate_guard_exact_witness :
    rateReservation dbRated 1 7 9 "x" =
      (⟨false, 400, "La calificación debe estar entre 1 y 5"⟩, dbRated) ∧
    rateReservation dbRated 1 8 3 "x" =
      (⟨false, 403, "No tienes permisos para calificar esta reserva"⟩, dbRated) ∧
    rateReservation dbRated 1 7 3 "x" =
      (⟨true, 200, "Calificación enviada exitosamente"⟩,
        ⟨[], [(1, ⟨7, 2, REstado.completada, none, none, none, 0, "gratuito",
          some 3, some "x"⟩)]⟩) :=
  ⟨(rate_guard_exact dbRated 1 7 9 "x").1 (Or.inr (by decide)),
    (rate_guard_exact dbRated 1 8 3 "x").2.1 resRated rfl (by decide) (by decide)
      (by decide),
    (rate_guard_exact dbRated 1 7 3 "x").2.2.2 resRated rfl (by decide) (by decide)
      rfl rfl⟩

/-- C9: invoked on a reservation that passes the cancellation guard while the
course already has `cupoDisponible = cupoMaximo`, the cancel endpoint persists
the reservation as `cancelada` (timestamp and reason set), returns a failure
response carrying the seat-release error, and leaves the seat count
unchanged — the operation reports failure after having mutated the
reservation. -/
theorem cancel_reports_failure_after_mutation (db : DB) (rid : Nat)
    (motivo : String) (ahora : Int) (r : Reservation) (curso : Course)
    (hr : lookupReservation db.reservations rid = some r)
    (hc : lookupCourse db.courses r.curso = some curso)
    (hg : sePuedeCancelar r curso ahora = true)
    (hfull : curso.cupoDisponible = curso.cupoMaximo) :
    cancelReservation db rid r.usuario false motivo ahora =
      (⟨false, 400, "No se puede liberar más cupos"⟩,
        { db with reservations := (updateReservation db.reservations rid
          { r with
            estado := REstado.cancelada
            fechaCancelacion := some ahora
            motivoCancelacion := some motivo }) }) ∧
    lookupReservation
        (cancelReservation db rid r.usuario false motivo ahora).2.reservations rid =
      some { r with
        estado := REstado.cancelada
        fechaCancelacion := some ahora
        motivoCancelacion := some motivo } ∧
    (cancelReservation db rid r.usuario false motivo ahora).2.courses =
      db.courses := by
  have hmain : cancelReservation db rid r.usuario false motivo ahora =
      (⟨false, 400, "No se puede liberar más cupos"⟩,
        { db with reservations := (updateReservation db.reservations rid
          { r with
            estado := REstado.cancelada
            fechaCancelacion := some ahora
            motivoCancelacion := some motivo }) }) := by
    simp only [cancelReservation, hr, hc]
    rw [if_neg (by simp)]
    rw [cancelar, if_neg (by simp [hg])]
    rw [liberarCupo, if_neg (by omega)]
  refine ⟨hmain, ?_, by rw [hmain]⟩
  rw [hmain]
  exact findDoc_saveDoc db.reservations rid _ r hr

/-- Witness for C9: a full course (10 of 10 seats free) and a confirmed
reservation cancelled well before the cutoff. -/
theorem cancel_reports_failure_after_mutation_witness :
    cancelReservation
        ⟨[(3, ⟨10, 10, CEstado.activo, 10 * msPorDia, 0⟩)],
          [(1, ⟨7, 3, REstado.confirmada, none, none, none, 0, "gratuito",
            none, none⟩)]⟩ 1 7 false "motivo" 0 =
      (⟨false, 400, "No se puede liberar más cupos"⟩,
        ⟨[(3, ⟨10, 10, CEstado.activo, 10 * msPorDia, 0⟩)],
          [(1, ⟨7, 3, REstado.cancelada, some 0, some "motivo", none, 0,
            "gratuito", none, none⟩)]⟩) :=
  (cancel_reports_failure_after_mutation
    ⟨[(3, ⟨10, 10, CEstado.activo, 10 * msPorDia, 0⟩)],
      [(1, ⟨7, 3, REstado.confirmada, none, none, none, 0, "gratuito",
        none, none⟩)]⟩ 1 "motivo" 0
    ⟨7, 3, REstado.confirmada, none, none, none, 0, "gratuito", none, none⟩
    ⟨10, 10, CEstado.activo, 10 * msPorDia, 0⟩ rfl rfl (by decide) rfl).1

/-- Appending a document whose pair clashes with no stored document preserves
the pair-uniqueness invariant. -/
theorem pairUnique_append (rs : List (Nat × Reservation)) (x : Nat × Reservation)
    (hp : pairUnique rs)
    (hn : ∀ p ∈ rs, ¬(p.2.usuario = x.2.usuario ∧ p.2.curso = x.2.curso)) :
    pairUnique (rs ++ [x]) := by
  rw [pairUnique, List.pairwise_append]
  refine ⟨hp, by simp, fun a ha b hb => ?_⟩
  rw [List.mem_singleton] at hb
  subst hb
  exact hn a ha

/-- C3: under the sequential semantics, `createReservation` is atomic from the
caller's perspective: on a success response the reservation record was stored
(in `pendiente` state, with `precioPagado` equal to the course's price) and
the course's seat count was decremented by exactly 1; on any failure response
the store is unchanged.  The handler's failure-after-save branch — where the
record would have to be discarded — is unreachable sequentially, because the
seat check of `sePuedeReservar` precedes the save on the same in-memory
course. -/
theorem create_reservation_atomic (db : DB) (newId uid cid : Nat)
    (notas : Option String) (mp : String) (ahora : Int) :
    ((createReservation db newId uid cid notas mp ahora).1.success = true →
      ∃ course, lookupCourse db.courses cid = some course ∧
        (createReservation db newId uid cid notas mp ahora).2.reservations =
          db.reservations ++
            [(newId, ⟨uid, cid, REstado.pendiente, none, none, notas,
              course.precio, mp, none, none⟩)] ∧
        lookupCourse (createReservation db newId uid cid notas mp ahora).2.courses
            cid =
          some { course with cupoDisponible := course.cupoDisponible - 1 }) ∧
    ((createReservation db newId uid cid notas mp ahora).1.success = false →
      (createReservation db newId uid cid notas mp ahora).2 = db) := by
  unfold createReservation
  cases hc : lookupCourse db.courses cid with
  | none => exact ⟨fun h => by simp at h, fun _ => rfl⟩
  | some course =>
    dsimp only
    by_cases h1 : course.estado ≠ CEstado.activo
    · rw [if_pos h1]
      exact ⟨fun h => by simp at h, fun _ => rfl⟩
    · rw [if_neg h1]
      by_cases h2 : (!(sePuedeReservar course ahora)) = true
      · rw [if_pos h2]
        exact ⟨fun h => by simp at h, fun _ => rfl⟩
      · rw [if_neg h2]
        by_cases h3 : userHasReservation db.reservations uid cid = true
        · rw [if_pos h3]
          exact ⟨fun h => by simp at h, fun _ => rfl⟩
        · rw [if_neg h3]
          have hcupo : course.cupoDisponible > 0 := by
            simp [sePuedeReservar] at h2
            omega
          have hres : reservarCupo course =
              .ok { course with cupoDisponible := course.cupoDisponible - 1 } := by
            rw [reservarCupo, if_pos hcupo]
          cases hins : insertReservation db.reservations newId
              ⟨uid, cid, REstado.pendiente, none, none, notas, course.precio, mp,
                none, none⟩ with
          | error e =>
            exact ⟨fun h => by simp at h, fun _ => rfl⟩
          | ok rs =>
            have hrs : rs = db.reservations ++
                [(newId, ⟨uid, cid, REstado.pendiente, none, none, notas,
                  course.precio, mp, none, none⟩)] := by
              rw [insertReservation] at hins
              split at hins
              · cases hins
              · split at hins
                · cases hins
                · cases hins
                  rfl
            rw [hres]
            refine ⟨fun _ => ⟨course, rfl, ?_, ?_⟩, fun h => by simp at h⟩
            · simpa using hrs
            · exact findDoc_saveDoc db.courses cid _ course hc

/-- Witness for C3 at the fixture store `dbCrear`: a successful creation
stores the pending record at the course's price and decrements the seat
count, and a creation against a missing course id leaves the store
unchanged. -/
theorem create_reservation_atomic_witness :
    (∃ course, lookupCourse dbCrear.courses 3 = some course ∧
      (createReservation dbCrear 1 7 3 none "gratuito" 0).2.reservations =
        dbCrear.reservations ++
          [(1, ⟨7, 3, REstado.pendiente, none, none, none, course.precio,
            "gratuito", none, none⟩)] ∧
      lookupCourse (createReservation dbCrear 1 7 3 none "gratuito" 0).2.courses 3 =
        some { course with cupoDisponible := course.cupoDisponible - 1 }) ∧
    (createReservation dbCrear 2 7 99 none "gratuito" 0).2 = dbCrear :=
  ⟨(create_reservation_atomic dbCrear 1 7 3 none "gratuito" 0).1 rfl,
    (create_reservation_atomic dbCrear 2 7 99 none "gratuito" 0).2 rfl⟩

/-- C5: `createReservation` preserves the at-most-one-document-per-pair
invariant; against a pair holding an active reservation it fails with the
`DuplicateReservation` message and status 409 leaving the store unchanged;
and any stored document for the pair — also a cancelled one — blocks the
creation of a second document, through the unique `(usuario, curso)` index. -/
theorem reservation_pair_unique (db : DB) (newId uid cid : Nat)
    (notas : Option String) (mp : String) (ahora : Int) :
    (pairUnique db.reservations →
      pairUnique (createReservation db newId uid cid notas mp ahora).2.reservations) ∧
    (∀ course, lookupCourse db.courses cid = some course →
      course.estado = CEstado.activo → sePuedeReservar course ahora = true →
      userHasReservation db.reservations uid cid = true →
      createReservation db newId uid cid notas mp ahora =
        (⟨false, 409, "Ya tienes una reserva activa para este curso"⟩, db)) ∧
    ((∃ p ∈ db.reservations, p.2.usuario = uid ∧ p.2.curso = cid) →
      (createReservation db newId uid cid notas mp ahora).2.reservations =
        db.reservations ∧
      (createReservation db newId uid cid notas mp ahora).1.success = false) := by
  refine ⟨?_, ?_, ?_⟩
  · intro hp
    unfold createReservation
    cases hc : lookupCourse db.courses cid with
    | none => exact hp
    | some course =>
      dsimp only
      by_cases h1 : course.estado ≠ CEstado.activo
      · rw [if_pos h1]; exact hp
      · rw [if_neg h1]
        by_cases h2 : (!(sePuedeReservar course ahora)) = true
        · rw [if_pos h2]; exact hp
        · rw [if_neg h2]
          by_cases h3 : userHasReservation db.reservations uid cid = true
          · rw [if_pos h3]; exact hp
          · rw [if_neg h3]
            cases hins : insertReservation db.reservations newId
                ⟨uid, cid, REstado.pendiente, none, none, notas, course.precio,
                  mp, none, none⟩ with
            | error e => exact hp
            | ok rs =>
              have hrsu : pairUnique rs := by
                rw [insertReservation] at hins
                split at hins
                · cases hins
                · split at hins
                  · cases hins
                  · rename_i hpre hconf
                    cases hins
                    refine pairUnique_append db.reservations _ hp ?_
                    intro p hmem hpc
                    apply hconf
                    rw [uniqueIndexConflict, List.any_eq_true]
                    exact ⟨p, hmem, by simp [hpc.1, hpc.2]⟩
              cases hrc : reservarCupo course with
              | error e => exact hrsu
              | ok course2 => exact hrsu
  · intro course hc hact hres hdup
    unfold createReservation
    rw [hc]
    dsimp only
    rw [if_neg (by simp [hact])]
    rw [if_neg (by simp [hres])]
    rw [if_pos hdup]
  · intro hex
    unfold createReservation
    cases hc : lookupCourse db.courses cid with
    | none => exact ⟨rfl, rfl⟩
    | some course =>
      dsimp only
      by_cases h1 : course.estado ≠ CEstado.activo
      · rw [if_pos h1]; exact ⟨rfl, rfl⟩
      · rw [if_neg h1]
        by_cases h2 : (!(sePuedeReservar course ahora)) = true
        · rw [if_pos h2]; exact ⟨rfl, rfl⟩
        · rw [if_neg h2]
          by_cases h3 : userHasReservation db.reservations uid cid = true
          · rw [if_pos h3]; exact ⟨rfl, rfl⟩
          · rw [if_neg h3]
            cases hins : insertReservation db.reservations newId
                ⟨uid, cid, REstado.pendiente, none, none, notas, course.precio,
                  mp, none, none⟩ with
            | error e => exact ⟨rfl, rfl⟩
            | ok rs =>
              exfalso
              rw [insertReservation] at hins
              split at hins
              · cases hins
              · split at hins
                · cases hins
                · rename_i hpre hconf
                  apply hconf
                  obtain ⟨p, hmem, hu, hcu⟩ := hex
                  rw [uniqueIndexConflict, List.any_eq_true]
                  exact ⟨p, hmem, by simp [hu, hcu]⟩

/-- Witness for C5 at the fixture stores: the invariant is preserved when
creating into `dbCrear`; a second create by user 7 after a successful first
one hits the active-duplicate check; and in `dbRebook`, where user 7 holds a
cancelled reservation on course 3, a re-booking attempt adds no document and
fails. -/
theorem reservation_pair_unique_witness :
    (pairUnique dbCrear.reservations →
      pairUnique (createReservation dbCrear 1 7 3 none "gratuito" 0).2.reservations) ∧
    ((createReservation dbRebook 2 7 3 none "gratuito" 0).2.reservations =
        dbRebook.reservations ∧
      (createReservation dbRebook 2 7 3 none "gratuito" 0).1.success = false) :=
  ⟨(reservation_pair_unique dbCrear 1 7 3 none "gratuito" 0).1,
    (reservation_pair_unique dbRebook 2 7 3 none "gratuito" 0).2.2
      ⟨(1, ⟨7, 3, REstado.cancelada, some 0, some "x", none, 50, "gratuito",
        none, none⟩), by simp [dbRebook], rfl, rfl⟩⟩


end Reservas
